import Mathlib

set_option autoImplicit false

/-!
Verification of the esdump scroll/pagination core.

The definitions below are a shallow embedding of the Go sources:

* `scroll.go` — `BasicScroller` with its `initialRequest` and `Next`
  methods (continuation-token scroll over a result set with an in-place
  retry loop for body-read failures);
* `query.go` — `MassQuery.Run` (parallel, non-paginated queries);
* `cmd/esdump/main.go` — `identifierDump` (identifier-batch mode).

Network effects are modelled by scripted transports: every call gets the
outcome the real transport would have produced, and the embedding records
how many requests and how many fixed 10-second sleeps were performed.
-/

namespace Esdump

/-- Decoded subset of a page response used by the scroller: the
continuation token from the top-level scroll-id field, the length of the
hits.hits array, and the server-reported hits.total (an int64 in Go). -/
structure SearchResponse where
  scrollID : String
  hitsLen : Nat
  hitsTotal : Int
  deriving Repr, DecidableEq

/-- Mutable fields of a BasicScroller that the claims are about: the
current continuation token `id` (empty until the first request), the
running document count `total`, and the sticky error `err`. -/
structure ScrollState where
  id : String
  total : Nat
  err : Option String
  deriving Repr, DecidableEq

/-- Fresh scroller state: empty token, zero documents, no error. -/
def initState : ScrollState := ⟨"", 0, none⟩

/-- Outcome of one initiating request, as `initialRequest` observes it:
request construction failure (before any request is sent), a transport
failure from the do-call, a decode failure of the response body, or a
decoded response. -/
inductive InitOutcome where
  | reqError
  | doError
  | decodeError
  | ok (sr : SearchResponse)
  deriving Repr, DecidableEq

/-- Outcome of one iteration of the continuation loop in `Next`: the body
copy fails (the one retryable class), the do-call fails, the body copies
but does not unmarshal, or a full decoded page. -/
inductive Attempt where
  | bodyReadError
  | transportError
  | decodeError
  | ok (sr : SearchResponse)
  deriving Repr, DecidableEq

/-- Scripted transport for a single `Next` call: what the initiating
request would return if issued, and the successive outcomes of
continuation iterations if those are issued instead. -/
structure Transport where
  initResp : InitOutcome
  contAttempts : List Attempt
  deriving Repr, DecidableEq

/-- How the continuation loop ends. `scriptEnded` is an artifact of the
finite script, reached only when a run needs more iterations than the
script provides; the claims always supply long enough scripts. -/
inductive ContOutcome where
  | maxRetriesExceeded
  | transportErr
  | decodeErr
  | scriptEnded
  | page (sr : SearchResponse)
  deriving Repr, DecidableEq

/-- Result of the continuation loop: its outcome, the number of requests
issued, and the number of 10-second sleeps performed. -/
structure ContRun where
  outcome : ContOutcome
  requests : Nat
  sleeps : Nat
  deriving Repr, DecidableEq

/-- The continuation loop of `Next` in scroll.go. The counter `retry`
starts at -3 at the call site; the loop first checks `retry` against
MaxRetries, then issues one request; a body-read failure sleeps 10
seconds, increments `retry` and loops, every other failure is terminal,
and a decoded page breaks out of the loop. -/
def contLoop (maxRetries : Int) (retry : Int) (attempts : List Attempt) : ContRun :=
  if retry = maxRetries then ⟨.maxRetriesExceeded, 0, 0⟩
  else
    match attempts with
    | [] => ⟨.scriptEnded, 0, 0⟩
    | .bodyReadError :: rest =>
        let r := contLoop maxRetries (retry + 1) rest
        ⟨r.outcome, r.requests + 1, r.sleeps + 1⟩
    | .transportError :: _ => ⟨.transportErr, 1, 0⟩
    | .decodeError :: _ => ⟨.decodeErr, 1, 0⟩
    | .ok sr :: _ => ⟨.page sr, 1, 0⟩

/-- Result of one `Next` call: the state after the call, the returned
boolean, and the numbers of network requests and sleeps performed. -/
structure NextResult where
  state : ScrollState
  ret : Bool
  requests : Nat
  sleeps : Nat
  deriving Repr, DecidableEq

/-- The `Next` method of BasicScroller. A recorded error returns false at
once with no request. An empty token runs `initialRequest`: on success it
stores the returned token, adds the page hits to `total` and returns
true; on failure it records the error. A non-empty token runs the
continuation loop with `retry` starting at -3; on a decoded page it
stores the new token, adds the page hits to `total`, and returns whether
the page was non-empty and the running total is at most the
server-reported total. -/
def Next (maxRetries : Int) (s : ScrollState) (t : Transport) : NextResult :=
  if s.err.isSome then ⟨s, false, 0, 0⟩
  else if s.id = "" then
    match t.initResp with
    | .reqError => ⟨⟨"", s.total, some ("request error")⟩, false, 0, 0⟩
    | .doError => ⟨⟨"", s.total, some ("transport error")⟩, false, 1, 0⟩
    | .decodeError => ⟨⟨"", s.total, some ("decode error")⟩, false, 1, 0⟩
    | .ok sr => ⟨⟨sr.scrollID, s.total + sr.hitsLen, none⟩, true, 1, 0⟩
  else
    match contLoop maxRetries (-3) t.contAttempts with
    | ⟨.maxRetriesExceeded, req, sl⟩ =>
        ⟨⟨s.id, s.total, some ("max retries exceeded")⟩, false, req, sl⟩
    | ⟨.transportErr, req, sl⟩ =>
        ⟨⟨s.id, s.total, some ("transport error")⟩, false, req, sl⟩
    | ⟨.decodeErr, req, sl⟩ =>
        ⟨⟨s.id, s.total, some ("decode error")⟩, false, req, sl⟩
    | ⟨.scriptEnded, req, sl⟩ =>
        ⟨⟨s.id, s.total, some ("script ended")⟩, false, req, sl⟩
    | ⟨.page sr, req, sl⟩ =>
        ⟨⟨sr.scrollID, s.total + sr.hitsLen, none⟩,
          decide (0 < sr.hitsLen) && decide ((s.total + sr.hitsLen : Int) ≤ sr.hitsTotal),
          req, sl⟩

/-- Run a sequence of `Next` calls against a list of per-call scripted
transports, returning the final state and the list of returned booleans
in call order. -/
def runNexts (maxRetries : Int) : ScrollState → List Transport → ScrollState × List Bool
  | s, [] => (s, [])
  | s, t :: ts =>
      let r := Next maxRetries s t
      let rest := runNexts maxRetries r.state ts
      (rest.1, r.ret :: rest.2)

/-- A `Next` call on a state with a recorded error changes nothing, does
no work, and returns false. -/
theorem Next_sticky (maxRetries : Int) (s : ScrollState) (t : Transport)
    (h : s.err.isSome) : Next maxRetries s t = ⟨s, false, 0, 0⟩ := by
  simp [Next, h]

/-- A `Next` call with an empty token and a successfully decoded
initiating request stores the returned token, adds the page hits, and
returns true after a single request. -/
theorem Next_init (maxRetries : Int) (s : ScrollState) (t : Transport)
    (sr : SearchResponse) (herr : s.err = none) (hid : s.id = "")
    (ht : t.initResp = .ok sr) :
    Next maxRetries s t = ⟨⟨sr.scrollID, s.total + sr.hitsLen, none⟩, true, 1, 0⟩ := by
  simp [Next, herr, hid, ht]

/-- A `Next` call with a non-empty token whose continuation loop decodes
a page stores the new token, adds the page hits, and returns the
non-empty-page-and-total-not-reached condition. -/
theorem Next_page (maxRetries : Int) (s : ScrollState) (t : Transport)
    (sr : SearchResponse) (req sl : Nat) (herr : s.err = none) (hid : ¬ s.id = "")
    (hc : contLoop maxRetries (-3) t.contAttempts = ⟨.page sr, req, sl⟩) :
    Next maxRetries s t = ⟨⟨sr.scrollID, s.total + sr.hitsLen, none⟩,
      decide (0 < sr.hitsLen) && decide ((s.total + sr.hitsLen : Int) ≤ sr.hitsTotal),
      req, sl⟩ := by
  simp [Next, herr, hid, hc]

/-- A `Next` call with a non-empty token whose continuation loop exhausts
the retry budget records the terminal retry error, leaves token and total
unchanged, and returns false. -/
theorem Next_exhausted (maxRetries : Int) (s : ScrollState) (t : Transport)
    (req sl : Nat) (herr : s.err = none) (hid : ¬ s.id = "")
    (hc : contLoop maxRetries (-3) t.contAttempts = ⟨.maxRetriesExceeded, req, sl⟩) :
    Next maxRetries s t =
      ⟨⟨s.id, s.total, some ("max retries exceeded")⟩, false, req, sl⟩ := by
  simp [Next, herr, hid, hc]

/-- C1: on every successful continuation advance the session stores the
new server-returned token, adds the page hit count to the running
document count, and returns true exactly when the page hit count is
positive and the running count is at most the server-reported total;
and for the scripted run with page sizes 1000, 1000, 500, 0 and reported
total 2500, the final total is 2500 and the four calls return true,
true, true, false. -/
theorem C1_continuation_advance :
    (∀ (maxRetries : Int) (s : ScrollState) (t : Transport) (sr : SearchResponse),
      s.err = none → ¬ s.id = "" →
      (contLoop maxRetries (-3) t.contAttempts).outcome = .page sr →
      (Next maxRetries s t).state.id = sr.scrollID ∧
      (Next maxRetries s t).state.total = s.total + sr.hitsLen ∧
      ((Next maxRetries s t).ret = true ↔
        (0 < sr.hitsLen ∧ (s.total + sr.hitsLen : Int) ≤ sr.hitsTotal))) ∧
    (runNexts 0 initState
      [⟨.ok ⟨"s1", 1000, 2500⟩, []⟩,
       ⟨.reqError, [.ok ⟨"s2", 1000, 2500⟩]⟩,
       ⟨.reqError, [.ok ⟨"s3", 500, 2500⟩]⟩,
       ⟨.reqError, [.ok ⟨"s4", 0, 2500⟩]⟩]).1.total = 2500 ∧
    (runNexts 0 initState
      [⟨.ok ⟨"s1", 1000, 2500⟩, []⟩,
       ⟨.reqError, [.ok ⟨"s2", 1000, 2500⟩]⟩,
       ⟨.reqError, [.ok ⟨"s3", 500, 2500⟩]⟩,
       ⟨.reqError, [.ok ⟨"s4", 0, 2500⟩]⟩]).2 = [true, true, true, false] := by
  refine ⟨?_, by decide, by decide⟩
  intro maxRetries s t sr herr hid hc
  have hc2 : contLoop maxRetries (-3) t.contAttempts =
      ⟨.page sr, (contLoop maxRetries (-3) t.contAttempts).requests,
        (contLoop maxRetries (-3) t.contAttempts).sleeps⟩ := by
    rw [← hc]
  rw [Next_page maxRetries s t sr _ _ herr hid hc2]
  refine ⟨rfl, rfl, ?_⟩
  simp

/-- C1 witness: a concrete successful continuation advance. -/
theorem C1_continuation_advance_witness :
    (Next 0 ⟨"a", 10, none⟩ ⟨.reqError, [.ok ⟨"b", 5, 20⟩]⟩).state.id = "b" ∧
    (Next 0 ⟨"a", 10, none⟩ ⟨.reqError, [.ok ⟨"b", 5, 20⟩]⟩).state.total = 15 ∧
    ((Next 0 ⟨"a", 10, none⟩ ⟨.reqError, [.ok ⟨"b", 5, 20⟩]⟩).ret = true ↔
      (0 < 5 ∧ (15 : Int) ≤ 20)) :=
  C1_continuation_advance.1 0 ⟨"a", 10, none⟩ ⟨.reqError, [.ok ⟨"b", 5, 20⟩]⟩
    ⟨"b", 5, 20⟩ rfl (by decide) (by decide)

/-- The loop errors out as soon as the counter equals MaxRetries, before
issuing any further request. -/
theorem contLoop_stop (maxRetries retry : Int) (attempts : List Attempt)
    (h : retry = maxRetries) : contLoop maxRetries retry attempts =
      ⟨.maxRetriesExceeded, 0, 0⟩ := by
  rw [contLoop.eq_def, if_pos h]

/-- One body-read failure costs one request and one sleep and re-enters
the loop with the counter incremented. -/
theorem contLoop_body (maxRetries retry : Int) (rest : List Attempt)
    (h : ¬ retry = maxRetries) : contLoop maxRetries retry (.bodyReadError :: rest) =
      ⟨(contLoop maxRetries (retry + 1) rest).outcome,
       (contLoop maxRetries (retry + 1) rest).requests + 1,
       (contLoop maxRetries (retry + 1) rest).sleeps + 1⟩ := by
  rw [contLoop.eq_def, if_neg h]

/-- A decoded page ends the loop after one request. -/
theorem contLoop_ok (maxRetries retry : Int) (sr : SearchResponse)
    (rest : List Attempt) (h : ¬ retry = maxRetries) :
    contLoop maxRetries retry (.ok sr :: rest) = ⟨.page sr, 1, 0⟩ := by
  rw [contLoop.eq_def, if_neg h]

/-- Retry-loop lemma: on a script of K body-read failures followed by a
decoded page, the loop exhausts the budget exactly when the counter,
starting at `retry`, reaches MaxRetries within the K failures; otherwise
it consumes the failures (one request and one sleep each) plus one final
successful request. -/
theorem contLoop_replicate (maxRetries retry : Int) (K : Nat) (sr : SearchResponse) :
    contLoop maxRetries retry (List.replicate K Attempt.bodyReadError ++ [Attempt.ok sr]) =
      if retry ≤ maxRetries ∧ maxRetries - retry ≤ (K : Int) then
        ⟨.maxRetriesExceeded, (maxRetries - retry).toNat, (maxRetries - retry).toNat⟩
      else ⟨.page sr, K + 1, K⟩ := by
  induction K generalizing retry with
  | zero =>
      by_cases h : retry = maxRetries
      · rw [contLoop_stop _ _ _ h, if_pos (by omega)]
        have h0 : (maxRetries - retry).toNat = 0 := by omega
        rw [h0]
      · rw [List.replicate_zero, List.nil_append, contLoop_ok _ _ _ _ h,
          if_neg (by omega)]
  | succ K ih =>
      rw [List.replicate_succ, List.cons_append]
      by_cases h : retry = maxRetries
      · rw [contLoop_stop _ _ _ h, if_pos (by omega)]
        have h0 : (maxRetries - retry).toNat = 0 := by omega
        rw [h0]
      · rw [contLoop_body _ _ _ h, ih (retry + 1)]
        by_cases h2 : retry + 1 ≤ maxRetries ∧ maxRetries - (retry + 1) ≤ (K : Int)
        · rw [if_pos h2, if_pos (by omega)]
          have h3 : (maxRetries - (retry + 1)).toNat + 1 = (maxRetries - retry).toNat := by
            omega
          simp [h3]
        · rw [if_neg h2, if_neg (by omega)]

/-- C2 counterexample: with MaxRetries = 1 and a transport that fails
exactly once before succeeding — so K = 1 ≥ MaxRetries — the claim
predicts termination with the retry-exhausted error, but the code
retries and the advance succeeds with no error recorded. -/
theorem C2_retry_budget_counterexample :
    (1 : Nat) ≥ 1 ∧
    (Next 1 ⟨"tok", 0, none⟩
      ⟨.reqError, [.bodyReadError, .ok ⟨"t2", 5, 10⟩]⟩).ret = true ∧
    (Next 1 ⟨"tok", 0, none⟩
      ⟨.reqError, [.bodyReadError, .ok ⟨"t2", 5, 10⟩]⟩).state.err = none := by
  decide

/-- C2 (amended): the retry counter starts at -3, so for nonnegative
MaxRetries the in-place budget is MaxRetries + 3 attempts: with a
transport failing the body read exactly K times then succeeding, if
K < MaxRetries + 3 the advance performs K retries (each after a fixed
10-second sleep) plus one final successful request and succeeds; if
K ≥ MaxRetries + 3 it records the terminal error max retries exceeded
after exactly MaxRetries + 3 request attempts and makes no further
attempts. -/
theorem C2_retry_budget_amended (maxRetries : Int) (K : Nat) (s : ScrollState)
    (t : Transport) (sr : SearchResponse) (hmr : 0 ≤ maxRetries)
    (herr : s.err = none) (hid : ¬ s.id = "")
    (ht : t.contAttempts = List.replicate K Attempt.bodyReadError ++ [Attempt.ok sr]) :
    ((K : Int) < maxRetries + 3 →
      (Next maxRetries s t).state.err = none ∧
      (Next maxRetries s t).state.id = sr.scrollID ∧
      (Next maxRetries s t).requests = K + 1 ∧
      (Next maxRetries s t).sleeps = K) ∧
    (maxRetries + 3 ≤ (K : Int) →
      (Next maxRetries s t).ret = false ∧
      (Next maxRetries s t).state.err = some ("max retries exceeded") ∧
      (Next maxRetries s t).requests = (maxRetries + 3).toNat ∧
      (Next maxRetries s t).sleeps = (maxRetries + 3).toNat) := by
  constructor
  · intro hK
    have hc : contLoop maxRetries (-3) t.contAttempts = ⟨.page sr, K + 1, K⟩ := by
      rw [ht, contLoop_replicate, if_neg (by omega)]
    rw [Next_page maxRetries s t sr (K + 1) K herr hid hc]
    exact ⟨rfl, rfl, rfl, rfl⟩
  · intro hK
    have hc : contLoop maxRetries (-3) t.contAttempts =
        ⟨.maxRetriesExceeded, (maxRetries + 3).toNat, (maxRetries + 3).toNat⟩ := by
      rw [ht, contLoop_replicate, if_pos (by omega)]
      have h4 : maxRetries - (-3) = maxRetries + 3 := by omega
      rw [h4]
    rw [Next_exhausted maxRetries s t _ _ herr hid hc]
    exact ⟨rfl, rfl, rfl, rfl⟩

/-- C2 witness: MaxRetries = 0 and five failures exhaust the budget after
exactly three attempts and three sleeps. -/
theorem C2_retry_budget_amended_witness :
    (Next 0 ⟨"x", 0, none⟩
      ⟨.reqError, List.replicate 5 Attempt.bodyReadError ++ [Attempt.ok ⟨"y", 1, 2⟩]⟩).ret
        = false ∧
    (Next 0 ⟨"x", 0, none⟩
      ⟨.reqError, List.replicate 5 Attempt.bodyReadError ++ [Attempt.ok ⟨"y", 1, 2⟩]⟩).state.err
        = some ("max retries exceeded") ∧
    (Next 0 ⟨"x", 0, none⟩
      ⟨.reqError, List.replicate 5 Attempt.bodyReadError ++ [Attempt.ok ⟨"y", 1, 2⟩]⟩).requests
        = 3 ∧
    (Next 0 ⟨"x", 0, none⟩
      ⟨.reqError, List.replicate 5 Attempt.bodyReadError ++ [Attempt.ok ⟨"y", 1, 2⟩]⟩).sleeps
        = 3 :=
  (C2_retry_budget_amended 0 5 ⟨"x", 0, none⟩
    ⟨.reqError, List.replicate 5 Attempt.bodyReadError ++ [Attempt.ok ⟨"y", 1, 2⟩]⟩
    ⟨"y", 1, 2⟩ (by omega) rfl (by decide) rfl).2 (by omega)

/-- C3: once the recorded error is non-nil, every subsequent `Next` call
returns false immediately, performs no network request and no sleep, and
leaves the whole session state unchanged. -/
theorem C3_sticky_error (maxRetries : Int) (s : ScrollState) (t : Transport)
    (h : s.err.isSome) : Next maxRetries s t = ⟨s, false, 0, 0⟩ :=
  Next_sticky maxRetries s t h

/-- C3 witness: a concrete terminal session is left untouched. -/
theorem C3_sticky_error_witness :
    Next 0 ⟨"tok", 7, some ("boom")⟩ ⟨.ok ⟨"x", 3, 9⟩, [.ok ⟨"y", 2, 9⟩]⟩ =
      ⟨⟨"tok", 7, some ("boom")⟩, false, 0, 0⟩ :=
  C3_sticky_error 0 ⟨"tok", 7, some ("boom")⟩ ⟨.ok ⟨"x", 3, 9⟩, [.ok ⟨"y", 2, 9⟩]⟩ rfl

/-- C5: after every successful advance, whether initiating or
continuation, the stored continuation token equals exactly the scroll-id
field of the response to that request, with no transformation. -/
theorem C5_token_faithful (maxRetries : Int) (s : ScrollState) (t : Transport)
    (sr : SearchResponse) (herr : s.err = none) :
    (s.id = "" → t.initResp = .ok sr → (Next maxRetries s t).state.id = sr.scrollID) ∧
    (¬ s.id = "" → (contLoop maxRetries (-3) t.contAttempts).outcome = .page sr →
      (Next maxRetries s t).state.id = sr.scrollID) := by
  constructor
  · intro hid ht
    rw [Next_init maxRetries s t sr herr hid ht]
  · intro hid hc
    have hc2 : contLoop maxRetries (-3) t.contAttempts =
        ⟨.page sr, (contLoop maxRetries (-3) t.contAttempts).requests,
          (contLoop maxRetries (-3) t.contAttempts).sleeps⟩ := by
      rw [← hc]
    rw [Next_page maxRetries s t sr _ _ herr hid hc2]

/-- C5 witness: concrete token faithfulness on an initiating advance. -/
theorem C5_token_faithful_witness :
    (Next 0 initState ⟨.ok ⟨"tok-1", 4, 9⟩, []⟩).state.id = "tok-1" :=
  (C5_token_faithful 0 initState ⟨.ok ⟨"tok-1", 4, 9⟩, []⟩ ⟨"tok-1", 4, 9⟩ rfl).1 rfl rfl

/-- C6: with an empty token and no recorded error — the situation of the
first Advance call — a `Next` call whose initiating request decodes
without error returns true unconditionally, whatever the hit count. -/
theorem C6_first_advance_true (maxRetries : Int) (s : ScrollState) (t : Transport)
    (sr : SearchResponse) (herr : s.err = none) (hid : s.id = "")
    (ht : t.initResp = .ok sr) : (Next maxRetries s t).ret = true := by
  rw [Next_init maxRetries s t sr herr hid ht]

/-- C6 witness: the first advance returns true even on a zero-hit
initial response. -/
theorem C6_first_advance_true_witness :
    (Next 0 initState ⟨.ok ⟨"tok", 0, 7⟩, []⟩).ret = true :=
  C6_first_advance_true 0 initState ⟨.ok ⟨"tok", 0, 7⟩, []⟩ ⟨"tok", 0, 7⟩ rfl rfl rfl

/-- C7: the running document count never decreases, neither across one
`Next` call nor across any sequence of calls. -/
theorem C7_total_monotone (maxRetries : Int) :
    (∀ (s : ScrollState) (t : Transport), s.total ≤ (Next maxRetries s t).state.total) ∧
    (∀ (s : ScrollState) (ts : List Transport),
      s.total ≤ (runNexts maxRetries s ts).1.total) := by
  have step : ∀ (s : ScrollState) (t : Transport),
      s.total ≤ (Next maxRetries s t).state.total := by
    intro s t
    unfold Next
    split
    · exact Nat.le_refl _
    · split
      · split <;> simp
      · split <;> simp
  refine ⟨step, ?_⟩
  intro s ts
  induction ts generalizing s with
  | nil => exact Nat.le_refl _
  | cons t ts ih =>
      exact Nat.le_trans (step s t) (ih (Next maxRetries s t).state)

/-- C7 witness: concrete monotonicity across a short run. -/
theorem C7_total_monotone_witness :
    (5 : Nat) ≤ (runNexts 0 ⟨"a", 5, none⟩ [⟨.reqError, [.ok ⟨"b", 2, 9⟩]⟩]).1.total :=
  (C7_total_monotone 0).2 ⟨"a", 5, none⟩ [⟨.reqError, [.ok ⟨"b", 2, 9⟩]⟩]

/-- C10: if the first advance succeeds but the response carries an empty
scroll-id, the session does not enter continuation mode: the stored token
stays empty, no error is recorded, and the following `Next` call runs
the initiating request again (its result depends only on the initiating
response of its transport, not on the continuation script). -/
theorem C10_empty_token_reinit (maxRetries : Int) (t1 t2 : Transport)
    (sr1 sr2 : SearchResponse) (h1 : t1.initResp = .ok sr1)
    (hid : sr1.scrollID = "") (h2 : t2.initResp = .ok sr2) :
    (Next maxRetries initState t1).state.id = "" ∧
    (Next maxRetries initState t1).state.err = none ∧
    Next maxRetries (Next maxRetries initState t1).state t2 =
      ⟨⟨sr2.scrollID, (Next maxRetries initState t1).state.total + sr2.hitsLen, none⟩,
        true, 1, 0⟩ := by
  rw [Next_init maxRetries initState t1 sr1 rfl rfl h1]
  refine ⟨hid, rfl, ?_⟩
  exact Next_init maxRetries ⟨sr1.scrollID, initState.total + sr1.hitsLen, none⟩ t2 sr2
    rfl hid h2

/-- C10 witness: a concrete empty-token first response followed by a
second call that runs the initiating branch again, with a continuation
script present but unused. -/
theorem C10_empty_token_reinit_witness :
    (Next 0 initState ⟨.ok ⟨"", 3, 9⟩, []⟩).state.id = "" ∧
    (Next 0 initState ⟨.ok ⟨"", 3, 9⟩, []⟩).state.err = none ∧
    Next 0 (Next 0 initState ⟨.ok ⟨"", 3, 9⟩, []⟩).state
        ⟨.ok ⟨"z", 2, 9⟩, [.ok ⟨"w", 1, 9⟩]⟩ =
      ⟨⟨"z", (Next 0 initState ⟨.ok ⟨"", 3, 9⟩, []⟩).state.total + 2, none⟩, true, 1, 0⟩ :=
  C10_empty_token_reinit 0 ⟨.ok ⟨"", 3, 9⟩, []⟩ ⟨.ok ⟨"z", 2, 9⟩, [.ok ⟨"w", 1, 9⟩]⟩
    ⟨"", 3, 9⟩ ⟨"z", 2, 9⟩ rfl rfl rfl

/-! ### Parallel query runner

`MassQuery.Run` in query.go launches one goroutine per query with
`g.Go` inside a plain loop over `q.Queries`; the loop body contains no
admission gate of any kind (no semaphore channel, no worker pool), so
nothing in the code prevents every launched job from being inside its
request/response round trip at the same time. The model below is the
induced transition system on job phases: a job that has not started may
send its request at any time, and a job whose request is in flight may
receive its response at any time. -/

/-- Phase of one job of `MassQuery.Run`: goroutine not yet inside its
request, request sent and response not yet received, or response
received. -/
inductive JobPhase where
  | idle
  | inFlight
  | done
  deriving Repr, DecidableEq

/-- Observable scheduling event: job `i` sends its request, or job `i`
receives its response. -/
inductive MQEvent where
  | start (i : Nat)
  | finish (i : Nat)
  deriving Repr, DecidableEq

/-- Initial phases for n queries: every job idle. -/
def mqInit (n : Nat) : List JobPhase := List.replicate n .idle

/-- One scheduling step of `MassQuery.Run`. Starting job `i` requires
only that job `i` exists and has not started — the loop in query.go
launches goroutines unconditionally — and finishing it requires that its
request is in flight. -/
def mqStep (ph : List JobPhase) : MQEvent → Option (List JobPhase)
  | .start i =>
      match ph.get? i with
      | some .idle => some (ph.set i .inFlight)
      | _ => none
  | .finish i =>
      match ph.get? i with
      | some .inFlight => some (ph.set i .done)
      | _ => none

/-- Run a whole schedule from a phase vector; `none` when some event is
not enabled. -/
def mqRun (ph : List JobPhase) : List MQEvent → Option (List JobPhase)
  | [] => some ph
  | e :: es =>
      match mqStep ph e with
      | some ph2 => mqRun ph2 es
      | none => none

/-- A schedule is a possible execution of `MassQuery.Run` with n queries
when every event is enabled in turn. -/
def validTrace (n : Nat) (tr : List MQEvent) : Bool :=
  (mqRun (mqInit n) tr).isSome

/-- Number of jobs currently inside their request/response round trip. -/
def inFlightCount (ph : List JobPhase) : Nat :=
  ph.countP (fun p => p = .inFlight)

/-- Largest in-flight count reached along a schedule. -/
def mqPeak (ph : List JobPhase) : List MQEvent → Nat
  | [] => inFlightCount ph
  | e :: es =>
      match mqStep ph e with
      | some ph2 => max (inFlightCount ph) (mqPeak ph2 es)
      | none => inFlightCount ph

/-- Peak in-flight count of a schedule of `MassQuery.Run` on n queries. -/
def peakInFlight (n : Nat) (tr : List MQEvent) : Nat :=
  mqPeak (mqInit n) tr

/-- C4 counterexample: with 10 queries, the schedule that starts all ten
jobs before any response arrives is a possible execution of `Run`, and
its peak in-flight count is 10, exceeding the claimed admission bound
of 4. -/
theorem C4_concurrency_counterexample :
    validTrace 10
      [.start 0, .start 1, .start 2, .start 3, .start 4, .start 5, .start 6,
       .start 7, .start 8, .start 9] = true ∧
    peakInFlight 10
      [.start 0, .start 1, .start 2, .start 3, .start 4, .start 5, .start 6,
       .start 7, .start 8, .start 9] = 10 ∧
    ¬ peakInFlight 10
      [.start 0, .start 1, .start 2, .start 3, .start 4, .start 5, .start 6,
       .start 7, .start 8, .start 9] ≤ 4 := by
  decide

theorem mqStep_length (ph ph2 : List JobPhase) (e : MQEvent)
    (h : mqStep ph e = some ph2) : ph2.length = ph.length := by
  cases e with
  | start i =>
      simp only [mqStep] at h
      cases hg : ph.get? i with
      | none => rw [hg] at h; simp at h
      | some p =>
          rw [hg] at h
          cases p with
          | idle => simp at h; rw [← h]; simp
          | inFlight => simp at h
          | done => simp at h
  | finish i =>
      simp only [mqStep] at h
      cases hg : ph.get? i with
      | none => rw [hg] at h; simp at h
      | some p =>
          rw [hg] at h
          cases p with
          | idle => simp at h
          | inFlight => simp at h; rw [← h]; simp
          | done => simp at h

theorem mqPeak_le_length (ph : List JobPhase) (tr : List MQEvent) :
    mqPeak ph tr ≤ ph.length := by
  induction tr generalizing ph with
  | nil => exact List.countP_le_length _
  | cons e es ih =>
      unfold mqPeak
      cases hs : mqStep ph e with
      | none => exact List.countP_le_length _
      | some ph2 =>
          simp only []
          refine max_le (List.countP_le_length _) ?_
          rw [← mqStep_length ph ph2 e hs]
          exact ih ph2

/-- C4 (amended): `MassQuery.Run` in query.go imposes no admission gate:
every job may be in flight simultaneously, and the only bound on the
peak in-flight count over any possible schedule is the number of queries
itself. -/
theorem C4_concurrency_amended (n : Nat) (tr : List MQEvent) :
    peakInFlight n tr ≤ n := by
  have h := mqPeak_le_length (mqInit n) tr
  simpa [mqInit] using h

/-- C4 witness: the bound instantiated on the all-start schedule. -/
theorem C4_concurrency_amended_witness :
    peakInFlight 10
      [.start 0, .start 1, .start 2, .start 3, .start 4, .start 5, .start 6,
       .start 7, .start 8, .start 9] ≤ 10 :=
  C4_concurrency_amended 10
    [.start 0, .start 1, .start 2, .start 3, .start 4, .start 5, .start 6,
     .start 7, .start 8, .start 9]

/-! ### Identifier-batch mode

`identifierDump` in cmd/esdump/main.go reads identifiers line by line,
cleans each line, skips blank and comment lines, collects identifiers
into a batch that is flushed as one lookup request whenever its length
is a multiple of the batch size, and issues one final request with the
remaining batch after the input ends. Every request copies its raw
response to the writer followed by one newline. Character-level string
operations are modelled over the character lists underlying the Go
strings. -/

/-- Fragments of a character stream split at newline characters. -/
def splitNl : List Char → List (List Char)
  | [] => [[]]
  | c :: cs =>
      if c = '\n' then [] :: splitNl cs
      else
        match splitNl cs with
        | [] => [[c]]
        | f :: fs => (c :: f) :: fs

/-- Lines delivered by the read loop of `identifierDump`: ReadString
yields one segment per newline; at end of input the loop breaks on the
EOF result, so a trailing fragment with no newline (in particular the
empty fragment after a final newline) is never processed. -/
def readLines (input : String) : List (List Char) :=
  (splitNl input.data).dropLast

/-- TrimSpace: drop leading and trailing whitespace characters. -/
def trimChars (l : List Char) : List Char :=
  ((l.dropWhile Char.isWhitespace).reverse.dropWhile Char.isWhitespace).reverse

/-- Per-line cleanup in `identifierDump`: TrimSpace, then ReplaceAll of
newline characters by nothing. -/
def cleanLine (l : List Char) : List Char :=
  (trimChars l).filter (fun c => c != '\n')

/-- A cleaned line is skipped when it is empty or starts with the hash
character. -/
def skipLine (l : List Char) : Bool :=
  match l with
  | [] => true
  | c :: _ => c == '#'

/-- The read/batch loop of `identifierDump`: clean each line, skip blank
and comment lines, append to the current batch, flush one request when
the batch length is a multiple of the batch size, and after the input is
exhausted issue one final request with whatever remains in the batch.
Returns the identifier batches of the issued requests in order. -/
def batchLoop (size : Nat) (batch : List String) : List (List Char) → List (List String)
  | [] => [batch]
  | line :: rest =>
      if skipLine (cleanLine line) then batchLoop size batch rest
      else if (batch ++ [String.mk (cleanLine line)]).length % size = 0 then
        (batch ++ [String.mk (cleanLine line)]) :: batchLoop size [] rest
      else batchLoop size (batch ++ [String.mk (cleanLine line)]) rest

/-- Identifier batches issued by `identifierDump` for a given input. -/
def identifierBatches (size : Nat) (input : String) : List (List String) :=
  batchLoop size [] (readLines input)

/-- Identifiers that survive the skip filter, in input order. -/
def keptIds (input : String) : List (List Char) :=
  ((readLines input).map cleanLine).filter (fun l => !skipLine l)

/-- Escapes of the Go %q verb that can occur in identifier lines:
backslash and double quote are escaped, other characters are kept. -/
def quoteChar (c : Char) : List Char :=
  if c = '"' then ['\\', '"'] else if c = '\\' then ['\\', '\\'] else [c]

/-- Go-style quoting of one identifier. -/
def goQuote (s : String) : String :=
  ⟨'"' :: (s.data.map quoteChar).flatten ++ ['"']⟩

/-- The lookup-by-identifier query body built for one batch. -/
def idsQuery (batch : List String) : String :=
  "\x7b\"query\": \x7b\"ids\": \x7b\"values\": [" ++
    String.intercalate (", ") (batch.map goQuote) ++ "]\x7d\x7d\x7d"

/-- Sink content written by `identifierDump`: every issued request copies
its raw response body to the writer followed by one newline, in
submission order; the scripted list supplies the response body of each
request in order. -/
def sinkContent : List (List String) → List String → String
  | [], _ => ""
  | _ :: _, [] => ""
  | _ :: bs, r :: rs => r ++ "\n" ++ sinkContent bs rs

/-- The observable behavior of `identifierDump`: the issued identifier
batches in submission order, and the bytes written to the sink. -/
def identifierDump (size : Nat) (input : String) (responses : List String) :
    List (List String) × String :=
  (identifierBatches size input, sinkContent (identifierBatches size input) responses)

example : readLines ("a\nb\nc\n") = [['a'], ['b'], ['c']] := by decide

example : identifierBatches 2 ("a\nb\nc\n") = [["a", "b"], ["c"]] := by decide

example : identifierBatches 2 ("a\nb\n") = [["a", "b"], []] := by decide

example : identifierBatches 2 ("") = [[]] := by decide

example : identifierBatches 2 ("# x\n\na\nb\n") = [["a", "b"], []] := by decide

example : idsQuery ["a", "b"] = "\x7b\"query\": \x7b\"ids\": \x7b\"values\": [\"a\", \"b\"]\x7d\x7d\x7d" := by
  decide

/-- C8: identifier-batch mode on input a, b, c with batch size 2 issues
exactly two lookup requests — the first for batch [a, b], the second for
batch [c] — and the sink receives the raw response of each request
followed by a trailing newline, in submission order. -/
theorem C8_round_trip (r1 r2 : String) :
    identifierBatches 2 ("a\nb\nc\n") = [["a", "b"], ["c"]] ∧
    (identifierDump 2 ("a\nb\nc\n") [r1, r2]).1.length = 2 ∧
    (identifierDump 2 ("a\nb\nc\n") [r1, r2]).2 = r1 ++ "\n" ++ r2 ++ "\n" := by
  have hb : identifierBatches 2 ("a\nb\nc\n") = [["a", "b"], ["c"]] := by decide
  refine ⟨hb, ?_, ?_⟩
  · show (identifierBatches 2 ("a\nb\nc\n")).length = 2
    rw [hb]
    rfl
  · show sinkContent (identifierBatches 2 ("a\nb\nc\n")) [r1, r2] = r1 ++ "\n" ++ r2 ++ "\n"
    rw [hb]
    show r1 ++ "\n" ++ (r2 ++ "\n" ++ "") = r1 ++ "\n" ++ r2 ++ "\n"
    rw [String.append_empty]
    simp only [String.append_assoc]

/-- The final flush of `identifierDump` always issues a request: the
batch list is never empty. -/
theorem batchLoop_ne_nil (size : Nat) (ls : List (List Char)) (batch : List String) :
    batchLoop size batch ls ≠ [] := by
  induction ls generalizing batch with
  | nil => simp [batchLoop]
  | cons line rest ih =>
      rw [batchLoop]
      by_cases hskip : skipLine (cleanLine line) = true
      · rw [if_pos hskip]
        exact ih batch
      · rw [if_neg hskip]
        by_cases hflush : (batch ++ [String.mk (cleanLine line)]).length % size = 0
        · rw [if_pos hflush]
          simp
        · rw [if_neg hflush]
          exact ih (batch ++ [String.mk (cleanLine line)])

/-- When the identifiers still to be kept fill the running batch to an
exact multiple of the batch size, the final flushed batch is empty. -/
theorem batchLoop_getLast_empty (size : Nat) (ls : List (List Char)) :
    ∀ batch : List String, batch.length < size →
      (batch.length + ((ls.map cleanLine).filter (fun l => !skipLine l)).length) % size = 0 →
      (batchLoop size batch ls).getLast? = some [] := by
  induction ls with
  | nil =>
      intro batch hlt hmod
      have h0 : batch.length = 0 := by
        simpa [Nat.mod_eq_of_lt hlt] using hmod
      have hb : batch = [] := List.length_eq_zero.mp h0
      subst hb
      simp [batchLoop]
  | cons line rest ih =>
      intro batch hlt hmod
      rw [batchLoop]
      by_cases hskip : skipLine (cleanLine line) = true
      · rw [if_pos hskip]
        refine ih batch hlt ?_
        simpa [hskip] using hmod
      · rw [if_neg hskip]
        have hkept : (((line :: rest).map cleanLine).filter (fun l => !skipLine l)).length =
            ((rest.map cleanLine).filter (fun l => !skipLine l)).length + 1 := by
          simp [List.filter_cons, hskip]
        have hmod2 : (batch.length + 1 +
            ((rest.map cleanLine).filter (fun l => !skipLine l)).length) % size = 0 := by
          rw [hkept] at hmod
          have harr : batch.length + 1 +
              ((rest.map cleanLine).filter (fun l => !skipLine l)).length =
              batch.length +
              (((rest.map cleanLine).filter (fun l => !skipLine l)).length + 1) := by
            omega
          rw [harr]
          exact hmod
        have hblen : (batch ++ [String.mk (cleanLine line)]).length = batch.length + 1 := by
          simp
        by_cases hflush : (batch ++ [String.mk (cleanLine line)]).length % size = 0
        · rw [if_pos hflush]
          have hbs : batch.length + 1 = size := by
            rw [hblen] at hflush
            rcases Nat.lt_or_ge (batch.length + 1) size with hlt2 | hge
            · rw [Nat.mod_eq_of_lt hlt2] at hflush
              omega
            · omega
          have hk : ((rest.map cleanLine).filter (fun l => !skipLine l)).length % size = 0 := by
            rw [hbs] at hmod2
            rwa [Nat.add_mod_left] at hmod2
          have hpos : 0 < size := by omega
          have htail : (batchLoop size [] rest).getLast? = some [] := by
            refine ih [] (by simpa using hpos) ?_
            simpa using hk
          obtain ⟨x, xs, hxl⟩ := List.exists_cons_of_ne_nil (batchLoop_ne_nil size rest [])
          rw [hxl, List.getLast?_cons_cons]
          rw [hxl] at htail
          exact htail
        · rw [if_neg hflush]
          refine ih (batch ++ [String.mk (cleanLine line)]) ?_ ?_
          · rw [hblen] at hflush ⊢
            rcases Nat.lt_or_ge (batch.length + 1) size with hlt2 | hge
            · exact hlt2
            · have hbs : batch.length + 1 = size := by omega
              rw [hbs, Nat.mod_self] at hflush
              omega
          · rw [hblen]
            exact hmod2

/-- C9: after the input is exhausted one final lookup request is issued
unconditionally with whatever remains in the batch: the issued batch
list is never empty, and whenever the number of kept identifiers is a
multiple of the batch size — in particular for an empty input, or for an
identifier count that is a positive multiple of the batch size — the
extra final request carries an empty identifier list. -/
theorem C9_unconditional_final_request (size : Nat) (input : String) (hsize : 0 < size) :
    identifierBatches size input ≠ [] ∧
    ((keptIds input).length % size = 0 →
      (identifierBatches size input).getLast? = some []) := by
  refine ⟨batchLoop_ne_nil size (readLines input) [], ?_⟩
  intro hmod
  refine batchLoop_getLast_empty size (readLines input) [] hsize ?_
  simpa [keptIds] using hmod

/-- C9 witness: identifier count 2 with batch size 2 issues the flushed
full batch and then one extra request with an empty identifier list. -/
theorem C9_unconditional_final_request_witness :
    identifierBatches 2 ("a\nb\n") ≠ [] ∧
    (identifierBatches 2 ("a\nb\n")).getLast? = some [] := by
  have h := C9_unconditional_final_request 2 ("a\nb\n") (by decide)
  exact ⟨h.1, h.2 (by decide)⟩

end Esdump
